import Mathlib

/-!
Shallow embedding of the upload handlers of the learn-file-storage-s3-golang
repository. Three source functions are modelled:

* `handlerUploadThumbnail` (src/unnamed/part_000)
* `handlerUploadVideoA` (src/handler_upload_video.go: deterministic key,
  fast-start rewrite, checked PutObject error)
* `handlerUploadVideoB` (src/unnamed/part_001: random key, no fast-start,
  PutObject error value dropped)

External collaborators (UUID parsing, JWT validation, the metadata store,
multipart decoding, ffprobe / ffmpeg subprocesses, the object store) are
modelled by environment records that fix the outcome of each collaborator
call; the handler definitions themselves follow the Go control flow
statement by statement.  Go float64 arithmetic is idealised by exact
fractions of integers together with explicit IEEE special values
(`GoFloat`).
-/

/-- Go float64 values as used by getVideoAspectRatio: finite values are
idealised as exact fractions `num / den` of integers (every finite value
built below keeps `0 < den`); the IEEE special values produced by division
by zero are explicit constructors.  Integer fractions rather than `Rat` are
used so that all operations reduce inside the kernel. -/
inductive GoFloat where
  | finite (num den : Int)
  | inf
  | negInf
  | nan
deriving DecidableEq

/-- Conversion of a Go int to float64 (exact for the magnitudes involved). -/
def GoFloat.ofInt (n : Int) : GoFloat := .finite n 1

/-- Go float64 division.  Division of a nonzero finite value by (positive)
zero yields a signed infinity and 0/0 yields NaN, as in IEEE-754; the result
denominator is sign-normalised to stay positive.  Only finite operands occur
in the modelled code; the remaining cases are irrelevant and map to NaN. -/
def GoFloat.div : GoFloat → GoFloat → GoFloat
  | .finite a b, .finite c d =>
      if c = 0 then
        if a = 0 then .nan else if 0 < a * b then .inf else .negInf
      else if b * c < 0 then .finite (-(a * d)) (-(b * c)) else .finite (a * d) (b * c)
  | _, _ => .nan

/-- Go float64 subtraction with IEEE special-value propagation. -/
def GoFloat.sub : GoFloat → GoFloat → GoFloat
  | .nan, _ => .nan
  | .finite _ _, .nan => .nan
  | .inf, .nan => .nan
  | .negInf, .nan => .nan
  | .finite a b, .finite c d => .finite (a * d - c * b) (b * d)
  | .finite _ _, .inf => .negInf
  | .finite _ _, .negInf => .inf
  | .inf, .finite _ _ => .inf
  | .inf, .inf => .nan
  | .inf, .negInf => .inf
  | .negInf, .finite _ _ => .negInf
  | .negInf, .inf => .negInf
  | .negInf, .negInf => .nan

/-- Go math.Abs on float64: abs of either infinity is +infinity, abs of NaN
is NaN (correct on finite fractions with positive denominator). -/
def GoFloat.fabs : GoFloat → GoFloat
  | .finite a b => .finite |a| b
  | .nan => .nan
  | .inf => .inf
  | .negInf => .inf

/-- Go float64 strict less-than, by cross-multiplication (correct on finite
fractions with positive denominators); every comparison involving NaN is
false. -/
def GoFloat.blt : GoFloat → GoFloat → Bool
  | .nan, _ => false
  | .finite _ _, .nan => false
  | .inf, .nan => false
  | .negInf, .nan => false
  | .finite a b, .finite c d => decide (a * d < c * b)
  | .finite _ _, .inf => true
  | .finite _ _, .negInf => false
  | .inf, _ => false
  | .negInf, .finite _ _ => true
  | .negInf, .inf => true
  | .negInf, .negInf => false

/-- Tail of getVideoAspectRatio (both variants, identical code): compare the
width/height ratio against the float constants 16.0/9.0 and 9.0/16.0 with
absolute tolerance 0.1 and render the matching aspect string. -/
def classifyAspect (r : GoFloat) : String :=
  if (GoFloat.fabs (GoFloat.sub r (GoFloat.finite 16 9))).blt (GoFloat.finite 1 10) then
    "16:9"
  else if (GoFloat.fabs (GoFloat.sub r (GoFloat.finite 9 16))).blt (GoFloat.finite 1 10) then
    "9:16"
  else
    "other"

/-- getVideoAspectRatio (both variants, identical code), on the parsed
ffprobe stream list.  `none` models a non-zero ffprobe exit or unparseable
JSON output; a stream is a (width, height) pair of Go ints.  The ratio is
computed as float64(width) / float64(height) on the first stream. -/
def getVideoAspectRatio (probe : Option (List (Int × Int))) : Except String String :=
  match probe with
  | none => .error "ffprobe failed"
  | some [] => .error "no streams found in ffprobe output"
  | some ((w, h) :: _) =>
      .ok (classifyAspect (GoFloat.div (GoFloat.ofInt w) (GoFloat.ofInt h)))

/-- Switch statement of handlerUploadVideo mapping the probe result to the
storage-key prefix. -/
def aspectStringOf (ar : String) : String :=
  if ar = "16:9" then "landscape"
  else if ar = "9:16" then "portrait"
  else "other"

/-- Composition of getVideoAspectRatio and the handler switch on a single
probed stream with the given width and height. -/
def videoAspectClass (w h : Int) : String :=
  aspectStringOf (classifyAspect (GoFloat.div (GoFloat.ofInt w) (GoFloat.ofInt h)))

/-- Output-path computation of processVideoForFastStart:
Go `filePath[:len(filePath)-len(".mp4")] + "-faststart.mp4"`.  The slice
panics when the path has fewer than 4 characters (negative slice bound),
modelled as `none`.  Go indexes bytes; the model uses characters, which
agrees on ASCII paths. -/
def fastStartOutputPath (filePath : String) : Option String :=
  if 4 ≤ filePath.length then
    some (filePath.take (filePath.length - 4) ++ "-faststart.mp4")
  else
    none

/-- processVideoForFastStart (src/handler_upload_video.go): compute the
output path (panicking on short inputs, modelled as the outer `none`), then
run ffmpeg, whose failure is the `Except.error` case. -/
def processVideoForFastStart (filePath : String) (ffmpegOK : Bool) :
    Option (Except Unit String) :=
  match fastStartOutputPath filePath with
  | none => none
  | some out => some (if ffmpegOK then .ok out else .error ())

example : videoAspectClass 1920 1080 = "landscape" := by decide
example : videoAspectClass 1080 1920 = "portrait" := by decide
example : videoAspectClass 1000 1000 = "other" := by decide
example : getVideoAspectRatio (some [(1920, 0)]) = .ok "other" := by rfl
example : processVideoForFastStart "clip.mp4" true = some (.ok "clip-faststart.mp4") := by rfl
example : processVideoForFastStart "abc" true = none := by rfl

/-- Pipeline steps named by the spec control flow, used to record the order
in which each handler performs them. -/
inductive Step where
  | authenticate
  | fetchRecord
  | ownershipCheck
  | decodeForm
  | validateMedia
  | persistBytes
  | updateRecord
deriving DecidableEq

/-- Video record of the metadata store, as touched by the handlers.
Identifiers are opaque strings. -/
structure VideoRecord where
  id : String
  userID : String
  thumbnailURL : Option String
  videoURL : Option String
deriving DecidableEq

/-- Observable outcome of one handler invocation: the HTTP status, the
ordered list of pipeline steps attempted, the local asset file created (for
thumbnails), the object-store key stored, and the record as written by a
successful UpdateVideo call (`none` when the store was not updated). -/
structure HandlerResult where
  status : Nat
  trace : List Step
  fileWritten : Option String
  objectPut : Option String
  updatedRecord : Option VideoRecord
deriving DecidableEq

/-- Failure exit of a handler: respondWithError with the given status, no
durable effect. -/
def failRes (status : Nat) (trace : List Step) : HandlerResult :=
  { status := status, trace := trace, fileWritten := none, objectPut := none,
    updatedRecord := none }

/-- Go mime.ExtensionsByType restricted to the builtin table of
mime/type.go (builtinTypesLower), with each extension list sorted as Go
sorts it.  Content-type strings are taken already in the canonical
lower-case form produced by the Go ParseMediaType function; unknown or malformed types
give the empty list, which the caller treats the same as a lookup error. -/
def extensionsByType (typ : String) : List String :=
  if typ = "application/json" then [".json"]
  else if typ = "application/pdf" then [".pdf"]
  else if typ = "application/wasm" then [".wasm"]
  else if typ = "image/avif" then [".avif"]
  else if typ = "image/gif" then [".gif"]
  else if typ = "image/jpeg" then [".jpeg", ".jpg"]
  else if typ = "image/png" then [".png"]
  else if typ = "image/svg+xml" then [".svg"]
  else if typ = "image/webp" then [".webp"]
  else if typ = "text/css" then [".css"]
  else if typ = "text/html" then [".htm", ".html"]
  else if typ = "text/javascript" then [".js", ".mjs"]
  else if typ = "text/xml" then [".xml"]
  else []

/-- Environment of one thumbnail-upload request: the outcome of every
external collaborator call made by handlerUploadThumbnail, in source order,
plus the configuration values it reads. -/
structure ThumbEnv where
  parsedVideoID : Option String
  bearerToken : Option String
  jwtUserID : Option String
  parseFormOK : Bool
  formFile : Option String
  getVideo : Option VideoRecord
  randReadOK : Bool
  randomName : String
  createOK : Bool
  copyOK : Bool
  updateOK : Bool
  assetsRoot : String
  port : String
deriving DecidableEq

/-- handlerUploadThumbnail (src/unnamed/part_000), statement by statement.
`formFile` is the Content-Type header of the multipart file when FormFile
succeeds.  filepath.Join is modelled as slash concatenation (Go also cleans
the path, which agrees on clean inputs). -/
def handlerUploadThumbnail (env : ThumbEnv) : HandlerResult :=
  match env.parsedVideoID with
  | none => failRes 400 []
  | some _ =>
  match env.bearerToken with
  | none => failRes 401 [.authenticate]
  | some _ =>
  match env.jwtUserID with
  | none => failRes 401 [.authenticate]
  | some userID =>
  if env.parseFormOK = false then failRes 400 [.authenticate, .decodeForm] else
  match env.formFile with
  | none => failRes 400 [.authenticate, .decodeForm]
  | some mediaType =>
  match extensionsByType mediaType with
  | [] => failRes 400 [.authenticate, .decodeForm, .validateMedia]
  | ext :: _ =>
  if ext ≠ ".jpg" ∧ ext ≠ ".png" then
    failRes 400 [.authenticate, .decodeForm, .validateMedia]
  else
  match env.getVideo with
  | none => failRes 404 [.authenticate, .decodeForm, .validateMedia, .fetchRecord]
  | some video =>
  if video.userID ≠ userID then
    failRes 401 [.authenticate, .decodeForm, .validateMedia, .fetchRecord, .ownershipCheck]
  else
  if env.randReadOK = false then
    failRes 500 [.authenticate, .decodeForm, .validateMedia, .fetchRecord, .ownershipCheck]
  else
  if env.createOK = false then
    failRes 500 [.authenticate, .decodeForm, .validateMedia, .fetchRecord, .ownershipCheck,
      .persistBytes]
  else
  if env.copyOK = false then
    { status := 500,
      trace := [.authenticate, .decodeForm, .validateMedia, .fetchRecord, .ownershipCheck,
        .persistBytes],
      fileWritten := some (env.assetsRoot ++ "/" ++ env.randomName ++ ext),
      objectPut := none, updatedRecord := none }
  else
  if env.updateOK = false then
    { status := 500,
      trace := [.authenticate, .decodeForm, .validateMedia, .fetchRecord, .ownershipCheck,
        .persistBytes, .updateRecord],
      fileWritten := some (env.assetsRoot ++ "/" ++ env.randomName ++ ext),
      objectPut := none, updatedRecord := none }
  else
    let thumbURL := "http://localhost:" ++ env.port ++ "/assets/" ++ env.randomName ++ ext
    { status := 200,
      trace := [.authenticate, .decodeForm, .validateMedia, .fetchRecord, .ownershipCheck,
        .persistBytes, .updateRecord],
      fileWritten := some (env.assetsRoot ++ "/" ++ env.randomName ++ ext),
      objectPut := none,
      updatedRecord := some { video with thumbnailURL := some thumbURL } }

/-- Environment of one video-upload request against
src/handler_upload_video.go (variant A): the outcome of every external
collaborator call in source order plus the configuration values read.
`formFile` is `none` when FormFile fails, `some none` when
mime.ParseMediaType fails on the Content-Type header, and `some (some mt)`
for a parsed media type `mt`.  `tempRand` is the random part substituted by
os.CreateTemp into the pattern tubely-upload-*.mp4. -/
structure VideoEnvA where
  parsedVideoID : Option String
  bearerToken : Option String
  jwtUserID : Option String
  getVideo : Option VideoRecord
  formFile : Option (Option String)
  createTempOK : Bool
  tempRand : String
  copyOK : Bool
  ffprobe : Option (List (Int × Int))
  seekOK : Bool
  ffmpegOK : Bool
  openProcessedOK : Bool
  putObjectOK : Bool
  updateOK : Bool
  s3CfDistribution : String
deriving DecidableEq

/-- handlerUploadVideo of src/handler_upload_video.go (variant A):
deterministic object key `{aspect}/{videoID}.mp4`, fast-start rewrite, CDN
URL, and a checked PutObject error. -/
def handlerUploadVideoA (env : VideoEnvA) : HandlerResult :=
  match env.parsedVideoID with
  | none => failRes 400 []
  | some videoID =>
  match env.bearerToken with
  | none => failRes 401 [.authenticate]
  | some _ =>
  match env.jwtUserID with
  | none => failRes 401 [.authenticate]
  | some userID =>
  match env.getVideo with
  | none => failRes 500 [.authenticate, .fetchRecord]
  | some video =>
  if video.userID ≠ userID then
    failRes 401 [.authenticate, .fetchRecord, .ownershipCheck]
  else
  match env.formFile with
  | none => failRes 400 [.authenticate, .fetchRecord, .ownershipCheck, .decodeForm]
  | some parsedCT =>
  match parsedCT with
  | none =>
    failRes 400 [.authenticate, .fetchRecord, .ownershipCheck, .decodeForm, .validateMedia]
  | some mediaType =>
  if mediaType ≠ "video/mp4" then
    failRes 400 [.authenticate, .fetchRecord, .ownershipCheck, .decodeForm, .validateMedia]
  else
  if env.createTempOK = false then
    failRes 500 [.authenticate, .fetchRecord, .ownershipCheck, .decodeForm, .validateMedia]
  else
  if env.copyOK = false then
    failRes 500 [.authenticate, .fetchRecord, .ownershipCheck, .decodeForm, .validateMedia]
  else
  match getVideoAspectRatio env.ffprobe with
  | .error _ =>
    failRes 500 [.authenticate, .fetchRecord, .ownershipCheck, .decodeForm, .validateMedia]
  | .ok aspectRatio =>
  if env.seekOK = false then
    failRes 500 [.authenticate, .fetchRecord, .ownershipCheck, .decodeForm, .validateMedia]
  else
  match processVideoForFastStart ("tubely-upload-" ++ env.tempRand ++ ".mp4") env.ffmpegOK with
  | none =>
    -- unreachable: the temp-file name always ends in ".mp4", so the slice never panics
    failRes 500 [.authenticate, .fetchRecord, .ownershipCheck, .decodeForm, .validateMedia]
  | some (.error _) =>
    failRes 500 [.authenticate, .fetchRecord, .ownershipCheck, .decodeForm, .validateMedia]
  | some (.ok _processedFilePath) =>
  if env.openProcessedOK = false then
    failRes 500 [.authenticate, .fetchRecord, .ownershipCheck, .decodeForm, .validateMedia]
  else
  if env.putObjectOK = false then
    failRes 500 [.authenticate, .fetchRecord, .ownershipCheck, .decodeForm, .validateMedia,
      .persistBytes]
  else
  let s3Key := aspectStringOf aspectRatio ++ "/" ++ videoID ++ ".mp4"
  let videoURL := "https://" ++ env.s3CfDistribution ++ "/" ++ s3Key
  if env.updateOK = false then
    { status := 500,
      trace := [.authenticate, .fetchRecord, .ownershipCheck, .decodeForm, .validateMedia,
        .persistBytes, .updateRecord],
      fileWritten := none, objectPut := some s3Key, updatedRecord := none }
  else
    { status := 200,
      trace := [.authenticate, .fetchRecord, .ownershipCheck, .decodeForm, .validateMedia,
        .persistBytes, .updateRecord],
      fileWritten := none, objectPut := some s3Key,
      updatedRecord := some { video with videoURL := some videoURL } }

/-- Environment of one video-upload request against src/unnamed/part_001
(variant B): as in variant A, but with the random-name draw instead of the
fast-start rewrite, and bucket/region configuration for the URL. -/
structure VideoEnvB where
  parsedVideoID : Option String
  bearerToken : Option String
  jwtUserID : Option String
  getVideo : Option VideoRecord
  formFile : Option (Option String)
  createTempOK : Bool
  copyOK : Bool
  ffprobe : Option (List (Int × Int))
  seekOK : Bool
  randReadOK : Bool
  randomName : String
  putObjectOK : Bool
  updateOK : Bool
  s3Bucket : String
  s3Region : String
deriving DecidableEq

/-- handlerUploadVideo of src/unnamed/part_001 (variant B): random object
key `{aspect}/videos/{randomName}.mp4`, direct bucket URL, no fast-start
rewrite.  The source assigns the PutObject error to `err` but never checks
it (the next statement overwrites `err`), so a failed PutObject neither
stops the handler nor changes its response: the model records the missed
check by continuing to the record update with `objectPut = none`. -/
def handlerUploadVideoB (env : VideoEnvB) : HandlerResult :=
  match env.parsedVideoID with
  | none => failRes 400 []
  | some _ =>
  match env.bearerToken with
  | none => failRes 401 [.authenticate]
  | some _ =>
  match env.jwtUserID with
  | none => failRes 401 [.authenticate]
  | some userID =>
  match env.getVideo with
  | none => failRes 500 [.authenticate, .fetchRecord]
  | some video =>
  if video.userID ≠ userID then
    failRes 401 [.authenticate, .fetchRecord, .ownershipCheck]
  else
  match env.formFile with
  | none => failRes 400 [.authenticate, .fetchRecord, .ownershipCheck, .decodeForm]
  | some parsedCT =>
  match parsedCT with
  | none =>
    failRes 400 [.authenticate, .fetchRecord, .ownershipCheck, .decodeForm, .validateMedia]
  | some mediaType =>
  if mediaType ≠ "video/mp4" then
    failRes 400 [.authenticate, .fetchRecord, .ownershipCheck, .decodeForm, .validateMedia]
  else
  if env.createTempOK = false then
    failRes 500 [.authenticate, .fetchRecord, .ownershipCheck, .decodeForm, .validateMedia]
  else
  if env.copyOK = false then
    failRes 500 [.authenticate, .fetchRecord, .ownershipCheck, .decodeForm, .validateMedia]
  else
  match getVideoAspectRatio env.ffprobe with
  | .error _ =>
    failRes 500 [.authenticate, .fetchRecord, .ownershipCheck, .decodeForm, .validateMedia]
  | .ok aspectRatio =>
  if env.seekOK = false then
    failRes 500 [.authenticate, .fetchRecord, .ownershipCheck, .decodeForm, .validateMedia]
  else
  if env.randReadOK = false then
    failRes 500 [.authenticate, .fetchRecord, .ownershipCheck, .decodeForm, .validateMedia]
  else
  let s3Key := aspectStringOf aspectRatio ++ "/videos/" ++ env.randomName ++ ".mp4"
  let videoURL :=
    "https://" ++ env.s3Bucket ++ ".s3." ++ env.s3Region ++ ".amazonaws.com/" ++ s3Key
  if env.updateOK = false then
    { status := 500,
      trace := [.authenticate, .fetchRecord, .ownershipCheck, .decodeForm, .validateMedia,
        .persistBytes, .updateRecord],
      fileWritten := none,
      objectPut := if env.putObjectOK then some s3Key else none,
      updatedRecord := none }
  else
    { status := 200,
      trace := [.authenticate, .fetchRecord, .ownershipCheck, .decodeForm, .validateMedia,
        .persistBytes, .updateRecord],
      fileWritten := none,
      objectPut := if env.putObjectOK then some s3Key else none,
      updatedRecord := some { video with videoURL := some videoURL } }

/-- Bridging lemma: the cross-multiplied integer comparison the model
performs on the fraction n/d (0 < d) against the constant a/b with
tolerance 1/10 coincides with the rational tolerance condition. -/
theorem tolCheck_iff (n d a b : Int) (hd : 0 < d) (hb : 0 < b) :
    (|n * b - a * d| * 10 < 1 * (d * b)) ↔ |(n : ℚ) / d - (a : ℚ) / b| < 1 / 10 := by
  have hdq : (0 : ℚ) < (d : ℚ) := by exact_mod_cast hd
  have hbq : (0 : ℚ) < (b : ℚ) := by exact_mod_cast hb
  rw [div_sub_div _ _ hdq.ne' hbq.ne', abs_div, abs_of_pos (mul_pos hdq hbq),
    div_lt_div_iff₀ (mul_pos hdq hbq) (by norm_num : (0 : ℚ) < 10),
    show ((d : ℚ)) * a = (a : ℚ) * d from mul_comm _ _]
  constructor
  · intro h; exact_mod_cast h
  · intro h; exact_mod_cast h

/-- Evaluation of the aspect classification on a finite ratio with positive
denominator, phrased through the rational tolerance conditions. -/
theorem classifyAspect_finite (n d : Int) (hd : 0 < d) :
    classifyAspect (.finite n d) =
      if |(n : ℚ) / d - 16 / 9| < 1 / 10 then "16:9"
      else if |(n : ℚ) / d - 9 / 16| < 1 / 10 then "9:16"
      else "other" := by
  have h1 := tolCheck_iff n d 16 9 hd (by norm_num)
  have h2 := tolCheck_iff n d 9 16 hd (by norm_num)
  push_cast at h1 h2
  simp only [classifyAspect, GoFloat.sub, GoFloat.fabs, GoFloat.blt, decide_eq_true_eq]
  rw [if_congr h1 rfl rfl, if_congr (iff_of_eq rfl) rfl (if_congr h2 rfl rfl)]

/-- Division of two converted Go ints with positive divisor is the exact
finite fraction. -/
theorem goDiv_ofInt (w h : Int) (hh : 0 < h) :
    GoFloat.div (GoFloat.ofInt w) (GoFloat.ofInt h) = GoFloat.finite w h := by
  simp [GoFloat.div, GoFloat.ofInt, ne_of_gt hh, not_lt.mpr (le_of_lt hh)]

/-- C2: for every probed width w and height h with h > 0, the aspect
classification is "landscape" exactly when |w/h - 16/9| < 0.1, "portrait"
exactly when |w/h - 9/16| < 0.1, and "other" exactly otherwise. -/
theorem c2_aspect_tolerance (w h : Int) (hh : 0 < h) :
    (videoAspectClass w h = "landscape" ↔ |(w : ℚ) / h - 16 / 9| < 1 / 10) ∧
    (videoAspectClass w h = "portrait" ↔ |(w : ℚ) / h - 9 / 16| < 1 / 10) ∧
    (videoAspectClass w h = "other" ↔
      ¬ |(w : ℚ) / h - 16 / 9| < 1 / 10 ∧ ¬ |(w : ℚ) / h - 9 / 16| < 1 / 10) := by
  unfold videoAspectClass
  rw [goDiv_ofInt w h hh, classifyAspect_finite w h hh]
  by_cases hL : |(w : ℚ) / h - 16 / 9| < 1 / 10
  · by_cases hP : |(w : ℚ) / h - 9 / 16| < 1 / 10
    · exfalso
      have g1 := abs_lt.mp hL
      have g2 := abs_lt.mp hP
      linarith [g1.1, g1.2, g2.1, g2.2]
    · rw [if_pos hL]
      exact ⟨iff_of_true (by decide) hL, iff_of_false (by decide) hP,
        iff_of_false (by decide) (fun hc => hc.1 hL)⟩
  · by_cases hP : |(w : ℚ) / h - 9 / 16| < 1 / 10
    · rw [if_neg hL, if_pos hP]
      exact ⟨iff_of_false (by decide) hL, iff_of_true (by decide) hP,
        iff_of_false (by decide) (fun hc => hc.2 hP)⟩
    · rw [if_neg hL, if_neg hP]
      exact ⟨iff_of_false (by decide) hL, iff_of_false (by decide) hP,
        iff_of_true (by decide) ⟨hL, hP⟩⟩

/-- Witness for c2_aspect_tolerance: the three example dimensions named by
the spec, classified through the theorem. -/
theorem c2_aspect_tolerance_witness :
    videoAspectClass 1920 1080 = "landscape" ∧
    videoAspectClass 1080 1920 = "portrait" ∧
    videoAspectClass 1000 1000 = "other" := by
  refine ⟨((c2_aspect_tolerance 1920 1080 (by norm_num)).1).mpr (by push_cast; norm_num),
    ((c2_aspect_tolerance 1080 1920 (by norm_num)).2.1).mpr (by push_cast; norm_num),
    ((c2_aspect_tolerance 1000 1000 (by norm_num)).2.2).mpr ⟨?_, ?_⟩⟩
  · rw [not_lt, le_abs]; right; push_cast; norm_num
  · rw [not_lt, le_abs]; left; push_cast; norm_num

/-- C9: on a non-empty stream list whose first stream has height 0, the
ratio is a signed infinity (or NaN for width 0), both tolerance comparisons
are false, and getVideoAspectRatio returns "other" with no error. -/
theorem c9_zero_height_no_guard (w : Int) (rest : List (Int × Int)) :
    getVideoAspectRatio (some ((w, 0) :: rest)) = .ok "other" ∧
    (GoFloat.div (GoFloat.ofInt w) (GoFloat.ofInt 0) = .inf ∨
     GoFloat.div (GoFloat.ofInt w) (GoFloat.ofInt 0) = .negInf ∨
     GoFloat.div (GoFloat.ofInt w) (GoFloat.ofInt 0) = .nan) := by
  have hdiv : GoFloat.div (GoFloat.ofInt w) (GoFloat.ofInt 0) =
      if w = 0 then GoFloat.nan else if 0 < w then GoFloat.inf else GoFloat.negInf := by
    simp [GoFloat.div, GoFloat.ofInt]
  constructor
  · show Except.ok (classifyAspect (GoFloat.div (GoFloat.ofInt w) (GoFloat.ofInt 0))) = _
    rw [hdiv]
    by_cases h0 : w = 0
    · simp [h0, classifyAspect, GoFloat.sub, GoFloat.fabs, GoFloat.blt]
    · by_cases hpos : 0 < w <;>
        simp [h0, hpos, classifyAspect, GoFloat.sub, GoFloat.fabs, GoFloat.blt]
  · rw [hdiv]
    by_cases h0 : w = 0
    · simp [h0]
    · by_cases hpos : 0 < w <;> simp [h0, hpos]

/-- C10: for inputs of length at least 4, processVideoForFastStart forms its
output path by removing the last 4 characters and appending
"-faststart.mp4" whether or not the input ends in ".mp4"; for shorter inputs
the slice is out of bounds (modelled as none). -/
theorem c10_faststart_suffix (p : String) (ok : Bool) :
    (4 ≤ p.length →
      processVideoForFastStart p ok =
        some (if ok then .ok (p.take (p.length - 4) ++ "-faststart.mp4") else .error ())) ∧
    (p.length < 4 → processVideoForFastStart p ok = none) ∧
    processVideoForFastStart "video.avi" true = some (.ok "video-faststart.mp4") := by
  refine ⟨?_, ?_, by rfl⟩
  · intro h4
    simp [processVideoForFastStart, fastStartOutputPath, h4]
  · intro hlt
    simp [processVideoForFastStart, fastStartOutputPath, not_le.mpr hlt]

/-- Witness for c10_faststart_suffix: a 8-character ".mp4" path and a
3-character path, evaluated through the theorem. -/
theorem c10_faststart_suffix_witness :
    (4 ≤ ("clip.mp4" : String).length ∧
      processVideoForFastStart "clip.mp4" true = some (.ok "clip-faststart.mp4")) ∧
    (("abc" : String).length < 4 ∧ processVideoForFastStart "abc" true = none) := by
  refine ⟨⟨by decide, ?_⟩, ⟨by decide, (c10_faststart_suffix "abc" true).2.1 (by decide)⟩⟩
  rw [(c10_faststart_suffix "clip.mp4" true).1 (by decide)]
  rfl

/-- Order in which the thumbnail handler attempts the pipeline steps. -/
def thumbStepOrder : List Step :=
  [.authenticate, .decodeForm, .validateMedia, .fetchRecord, .ownershipCheck, .persistBytes,
    .updateRecord]

/-- Order in which both video handlers attempt the pipeline steps. -/
def videoStepOrder : List Step :=
  [.authenticate, .fetchRecord, .ownershipCheck, .decodeForm, .validateMedia, .persistBytes,
    .updateRecord]

/-- Every thumbnail-handler run attempts its steps in thumbStepOrder. -/
theorem thumbTrace_ordered (env : ThumbEnv) :
    (handlerUploadThumbnail env).trace <+: thumbStepOrder := by
  unfold handlerUploadThumbnail
  repeat' split
  all_goals exact ⟨_, rfl⟩

/-- Every variant-A video-handler run attempts its steps in videoStepOrder. -/
theorem videoATrace_ordered (env : VideoEnvA) :
    (handlerUploadVideoA env).trace <+: videoStepOrder := by
  unfold handlerUploadVideoA
  repeat' split
  all_goals exact ⟨_, rfl⟩

/-- Every variant-B video-handler run attempts its steps in videoStepOrder. -/
theorem videoBTrace_ordered (env : VideoEnvB) :
    (handlerUploadVideoB env).trace <+: videoStepOrder := by
  unfold handlerUploadVideoB
  repeat' split
  all_goals exact ⟨_, rfl⟩

/-- Fully successful thumbnail upload used as the C6 counterexample run. -/
def c6ThumbEnv : ThumbEnv :=
  { parsedVideoID := some "v-1", bearerToken := some "tok", jwtUserID := some "alice",
    parseFormOK := true, formFile := some "image/png",
    getVideo := some { id := "v-1", userID := "alice", thumbnailURL := none, videoURL := none },
    randReadOK := true, randomName := "rname", createOK := true, copyOK := true,
    updateOK := true, assetsRoot := "assets", port := "8091" }

/-- C6 counterexample: in a successful thumbnail upload the handler decodes
the multipart form and validates the media type BEFORE fetching the record
from the metadata store, contradicting the claimed order. -/
theorem c6_counterexample :
    (handlerUploadThumbnail c6ThumbEnv).trace = thumbStepOrder ∧
    (handlerUploadThumbnail c6ThumbEnv).trace.indexOf Step.decodeForm <
      (handlerUploadThumbnail c6ThumbEnv).trace.indexOf Step.fetchRecord := by decide

/-- C6 (amended): each handler attempts its pipeline steps in one fixed
order.  Both video handlers follow authenticate, fetch record, ownership
check, decode form, validate media, persist, update; the thumbnail handler
decodes the form and validates the media type before fetching the record
and checking ownership, with the rest of the order as claimed. -/
theorem c6_step_order :
    (∀ e : ThumbEnv, (handlerUploadThumbnail e).trace <+: thumbStepOrder) ∧
    (∀ e : VideoEnvA, (handlerUploadVideoA e).trace <+: videoStepOrder) ∧
    (∀ e : VideoEnvB, (handlerUploadVideoB e).trace <+: videoStepOrder) :=
  ⟨thumbTrace_ordered, videoATrace_ordered, videoBTrace_ordered⟩

/-- Video upload (variant A) with a well-formed identifier, valid
authentication, and a failing metadata fetch: the C4 counterexample run. -/
def c4VideoEnvA : VideoEnvA :=
  { parsedVideoID := some "v-1", bearerToken := some "tok", jwtUserID := some "alice",
    getVideo := none, formFile := some (some "video/mp4"), createTempOK := true,
    tempRand := "abc123", copyOK := true, ffprobe := some [(1920, 1080)], seekOK := true,
    ffmpegOK := true, openProcessedOK := true, putObjectOK := true, updateOK := true,
    s3CfDistribution := "cdn.example.com" }

/-- C4 counterexample: a video upload whose identifier is well-formed but
unknown to the metadata store responds 500, not the claimed 404. -/
theorem c4_counterexample :
    (handlerUploadVideoA c4VideoEnvA).status = 500 ∧
    ¬(handlerUploadVideoA c4VideoEnvA).status = 404 := by decide

/-- C4 (amended): when the video identifier is well-formed but the metadata
fetch fails, the thumbnail handler returns 404 while both video-upload
handlers return 500. -/
theorem c4_unknown_video_status
    (te : ThumbEnv) (ea : VideoEnvA) (eb : VideoEnvB)
    (v1 t1 u1 ct ext : String) (rest : List String)
    (h1 : te.parsedVideoID = some v1) (h2 : te.bearerToken = some t1)
    (h3 : te.jwtUserID = some u1) (h4 : te.parseFormOK = true)
    (h5 : te.formFile = some ct) (h6 : extensionsByType ct = ext :: rest)
    (h7 : ext = ".jpg" ∨ ext = ".png") (h8 : te.getVideo = none)
    (va1 ta2 ua2 : String)
    (g1 : ea.parsedVideoID = some va1) (g2 : ea.bearerToken = some ta2)
    (g3 : ea.jwtUserID = some ua2) (g4 : ea.getVideo = none)
    (vb1 tb2 ub2 : String)
    (k1 : eb.parsedVideoID = some vb1) (k2 : eb.bearerToken = some tb2)
    (k3 : eb.jwtUserID = some ub2) (k4 : eb.getVideo = none) :
    (handlerUploadThumbnail te).status = 404 ∧
    (handlerUploadVideoA ea).status = 500 ∧
    (handlerUploadVideoB eb).status = 500 := by
  have hext : ¬(ext ≠ ".jpg" ∧ ext ≠ ".png") := by
    rcases h7 with h7 | h7 <;> subst h7
    · exact fun hc => hc.1 rfl
    · exact fun hc => hc.2 rfl
  refine ⟨?_, ?_, ?_⟩
  · simp [handlerUploadThumbnail, h1, h2, h3, h4, h5, h6, h8, hext, failRes]
  · simp [handlerUploadVideoA, g1, g2, g3, g4, failRes]
  · simp [handlerUploadVideoB, k1, k2, k3, k4, failRes]

/-- Witness for c4_unknown_video_status: concrete runs of all three
handlers against an unknown identifier. -/
theorem c4_unknown_video_status_witness :
    (handlerUploadThumbnail
      { parsedVideoID := some "v-1", bearerToken := some "tok", jwtUserID := some "alice",
        parseFormOK := true, formFile := some "image/png", getVideo := none,
        randReadOK := true, randomName := "rname", createOK := true, copyOK := true,
        updateOK := true, assetsRoot := "assets", port := "8091" }).status = 404 ∧
    (handlerUploadVideoA c4VideoEnvA).status = 500 ∧
    (handlerUploadVideoB
      { parsedVideoID := some "v-1", bearerToken := some "tok", jwtUserID := some "alice",
        getVideo := none, formFile := some (some "video/mp4"), createTempOK := true,
        copyOK := true, ffprobe := some [(1920, 1080)], seekOK := true, randReadOK := true,
        randomName := "rname", putObjectOK := true, updateOK := true,
        s3Bucket := "tubely", s3Region := "us-east-1" }).status = 500 :=
  c4_unknown_video_status _ _ _ "v-1" "tok" "alice" "image/png" ".png" []
    rfl rfl rfl rfl rfl rfl (Or.inr rfl) rfl
    "v-1" "tok" "alice" rfl rfl rfl rfl
    "v-1" "tok" "alice" rfl rfl rfl rfl

/-- C5: an authenticated request by a user who does not own the target
record is rejected with 401 by both the thumbnail and the video handlers
(either variant), and no file is written, no object is stored, and the
record is not updated. -/
theorem c5_nonowner_rejected
    (te : ThumbEnv) (ea : VideoEnvA) (eb : VideoEnvB)
    (v1 t1 u1 ct ext : String) (rest : List String) (video1 : VideoRecord)
    (h1 : te.parsedVideoID = some v1) (h2 : te.bearerToken = some t1)
    (h3 : te.jwtUserID = some u1) (h4 : te.parseFormOK = true)
    (h5 : te.formFile = some ct) (h6 : extensionsByType ct = ext :: rest)
    (h7 : ext = ".jpg" ∨ ext = ".png") (h8 : te.getVideo = some video1)
    (h9 : video1.userID ≠ u1)
    (va1 ta2 ua2 : String) (videoA : VideoRecord)
    (g1 : ea.parsedVideoID = some va1) (g2 : ea.bearerToken = some ta2)
    (g3 : ea.jwtUserID = some ua2) (g4 : ea.getVideo = some videoA)
    (g5 : videoA.userID ≠ ua2)
    (vb1 tb2 ub2 : String) (videoB : VideoRecord)
    (k1 : eb.parsedVideoID = some vb1) (k2 : eb.bearerToken = some tb2)
    (k3 : eb.jwtUserID = some ub2) (k4 : eb.getVideo = some videoB)
    (k5 : videoB.userID ≠ ub2) :
    ((handlerUploadThumbnail te).status = 401 ∧
      (handlerUploadThumbnail te).fileWritten = none ∧
      (handlerUploadThumbnail te).objectPut = none ∧
      (handlerUploadThumbnail te).updatedRecord = none) ∧
    ((handlerUploadVideoA ea).status = 401 ∧
      (handlerUploadVideoA ea).fileWritten = none ∧
      (handlerUploadVideoA ea).objectPut = none ∧
      (handlerUploadVideoA ea).updatedRecord = none) ∧
    ((handlerUploadVideoB eb).status = 401 ∧
      (handlerUploadVideoB eb).fileWritten = none ∧
      (handlerUploadVideoB eb).objectPut = none ∧
      (handlerUploadVideoB eb).updatedRecord = none) := by
  have hext : ¬(ext ≠ ".jpg" ∧ ext ≠ ".png") := by
    rcases h7 with h7 | h7 <;> subst h7
    · exact fun hc => hc.1 rfl
    · exact fun hc => hc.2 rfl
  refine ⟨?_, ?_, ?_⟩
  · simp [handlerUploadThumbnail, h1, h2, h3, h4, h5, h6, h8, h9, hext, failRes]
  · simp [handlerUploadVideoA, g1, g2, g3, g4, g5, failRes]
  · simp [handlerUploadVideoB, k1, k2, k3, k4, k5, failRes]

/-- Concrete non-owner thumbnail request (record owned by alice, caller
authenticated as mallory). -/
def c5ThumbEnv : ThumbEnv :=
  { parsedVideoID := some "v-1", bearerToken := some "tok", jwtUserID := some "mallory",
    parseFormOK := true, formFile := some "image/png",
    getVideo := some { id := "v-1", userID := "alice", thumbnailURL := none, videoURL := none },
    randReadOK := true, randomName := "rname", createOK := true, copyOK := true,
    updateOK := true, assetsRoot := "assets", port := "8091" }

/-- Concrete non-owner video request against variant A. -/
def c5VideoEnvA : VideoEnvA :=
  { parsedVideoID := some "v-1", bearerToken := some "tok", jwtUserID := some "mallory",
    getVideo := some { id := "v-1", userID := "alice", thumbnailURL := none, videoURL := none },
    formFile := some (some "video/mp4"), createTempOK := true, tempRand := "abc123",
    copyOK := true, ffprobe := some [(1920, 1080)], seekOK := true, ffmpegOK := true,
    openProcessedOK := true, putObjectOK := true, updateOK := true,
    s3CfDistribution := "cdn.example.com" }

/-- Concrete non-owner video request against variant B. -/
def c5VideoEnvB : VideoEnvB :=
  { parsedVideoID := some "v-1", bearerToken := some "tok", jwtUserID := some "mallory",
    getVideo := some { id := "v-1", userID := "alice", thumbnailURL := none, videoURL := none },
    formFile := some (some "video/mp4"), createTempOK := true, copyOK := true,
    ffprobe := some [(1920, 1080)], seekOK := true, randReadOK := true,
    randomName := "rname", putObjectOK := true, updateOK := true,
    s3Bucket := "tubely", s3Region := "us-east-1" }

/-- Witness for c5_nonowner_rejected: the three concrete non-owner runs. -/
theorem c5_nonowner_rejected_witness :
    ((handlerUploadThumbnail c5ThumbEnv).status = 401 ∧
      (handlerUploadThumbnail c5ThumbEnv).fileWritten = none ∧
      (handlerUploadThumbnail c5ThumbEnv).objectPut = none ∧
      (handlerUploadThumbnail c5ThumbEnv).updatedRecord = none) ∧
    ((handlerUploadVideoA c5VideoEnvA).status = 401 ∧
      (handlerUploadVideoA c5VideoEnvA).fileWritten = none ∧
      (handlerUploadVideoA c5VideoEnvA).objectPut = none ∧
      (handlerUploadVideoA c5VideoEnvA).updatedRecord = none) ∧
    ((handlerUploadVideoB c5VideoEnvB).status = 401 ∧
      (handlerUploadVideoB c5VideoEnvB).fileWritten = none ∧
      (handlerUploadVideoB c5VideoEnvB).objectPut = none ∧
      (handlerUploadVideoB c5VideoEnvB).updatedRecord = none) :=
  c5_nonowner_rejected c5ThumbEnv c5VideoEnvA c5VideoEnvB
    "v-1" "tok" "mallory" "image/png" ".png" []
    { id := "v-1", userID := "alice", thumbnailURL := none, videoURL := none }
    rfl rfl rfl rfl rfl rfl (Or.inr rfl) rfl (by decide)
    "v-1" "tok" "mallory"
    { id := "v-1", userID := "alice", thumbnailURL := none, videoURL := none }
    rfl rfl rfl rfl (by decide)
    "v-1" "tok" "mallory"
    { id := "v-1", userID := "alice", thumbnailURL := none, videoURL := none }
    rfl rfl rfl rfl (by decide)

/-- Video upload against variant B in which every step succeeds except the
object-store PutObject call. -/
def c1VideoEnvB : VideoEnvB :=
  { parsedVideoID := some "v-1", bearerToken := some "tok", jwtUserID := some "alice",
    getVideo := some { id := "v-1", userID := "alice", thumbnailURL := none, videoURL := none },
    formFile := some (some "video/mp4"), createTempOK := true, copyOK := true,
    ffprobe := some [(1920, 1080)], seekOK := true, randReadOK := true,
    randomName := "r4nd", putObjectOK := false, updateOK := true,
    s3Bucket := "tubely", s3Region := "us-east-1" }

/-- Record state after the C1 run: the video URL points at an object that
was never stored. -/
def c1UpdatedRecord : VideoRecord :=
  { id := "v-1", userID := "alice", thumbnailURL := none,
    videoURL := some "https://tubely.s3.us-east-1.amazonaws.com/landscape/videos/r4nd.mp4" }

/-- C1: in src/unnamed/part_001 the PutObject error is assigned to err but
never checked, so when persisting the bytes to the object store fails the
handler does not respond 500: it stores nothing, still overwrites the
video URL of the record, and responds 200. -/
theorem c1_putobject_error_ignored :
    (handlerUploadVideoB c1VideoEnvB).status = 200 ∧
    (handlerUploadVideoB c1VideoEnvB).objectPut = none ∧
    (handlerUploadVideoB c1VideoEnvB).updatedRecord = some c1UpdatedRecord ∧
    ¬(handlerUploadVideoB c1VideoEnvB).status = 500 := by decide

/-- Thumbnail upload declaring content-type image/jpeg, with every
collaborator succeeding and the caller owning the record. -/
def c3JpegEnv : ThumbEnv :=
  { parsedVideoID := some "v-1", bearerToken := some "tok", jwtUserID := some "alice",
    parseFormOK := true, formFile := some "image/jpeg",
    getVideo := some { id := "v-1", userID := "alice", thumbnailURL := none, videoURL := none },
    randReadOK := true, randomName := "r4nd", createOK := true, copyOK := true,
    updateOK := true, assetsRoot := "assets", port := "8091" }

/-- The same request declaring content-type image/png. -/
def c3PngEnv : ThumbEnv :=
  { parsedVideoID := some "v-1", bearerToken := some "tok", jwtUserID := some "alice",
    parseFormOK := true, formFile := some "image/png",
    getVideo := some { id := "v-1", userID := "alice", thumbnailURL := none, videoURL := none },
    randReadOK := true, randomName := "r4nd", createOK := true, copyOK := true,
    updateOK := true, assetsRoot := "assets", port := "8091" }

/-- Record state after the successful image/png run of the C3 theorem. -/
def c3PngUpdatedRecord : VideoRecord :=
  { id := "v-1", userID := "alice",
    thumbnailURL := some "http://localhost:8091/assets/r4nd.png", videoURL := none }

/-- C3: mime.ExtensionsByType sorts its result, so for image/jpeg the first
extension is ".jpeg", the check of `exts[0]` against ".jpg"/".png"
fails, and a valid image/jpeg thumbnail upload is rejected with 400 and no
record change; the image/png request succeeds with the thumbnail URL built
from the generated name and configured port. -/
theorem c3_jpeg_rejected_png_accepted :
    ((handlerUploadThumbnail c3JpegEnv).status = 400 ∧
      (handlerUploadThumbnail c3JpegEnv).fileWritten = none ∧
      (handlerUploadThumbnail c3JpegEnv).updatedRecord = none) ∧
    ((handlerUploadThumbnail c3PngEnv).status = 200 ∧
      (handlerUploadThumbnail c3PngEnv).fileWritten = some "assets/r4nd.png" ∧
      (handlerUploadThumbnail c3PngEnv).updatedRecord = some c3PngUpdatedRecord) := by decide

/-- Fully successful video upload against variant B, used as the C7
counterexample run. -/
def c7VideoEnvB : VideoEnvB :=
  { parsedVideoID := some "v-1", bearerToken := some "tok", jwtUserID := some "alice",
    getVideo := some { id := "v-1", userID := "alice", thumbnailURL := none, videoURL := none },
    formFile := some (some "video/mp4"), createTempOK := true, copyOK := true,
    ffprobe := some [(1920, 1080)], seekOK := true, randReadOK := true,
    randomName := "r4nd", putObjectOK := true, updateOK := true,
    s3Bucket := "tubely", s3Region := "us-east-1" }

/-- C7 counterexample: a successful variant-B upload stores the key
landscape/videos/r4nd.mp4, which is neither {aspect}/{videoID}.mp4 nor
{aspect}/{randomName}.mp4: the key has an extra "videos/" path segment. -/
theorem c7_counterexample :
    (handlerUploadVideoB c7VideoEnvB).status = 200 ∧
    (handlerUploadVideoB c7VideoEnvB).objectPut = some "landscape/videos/r4nd.mp4" ∧
    "landscape/videos/r4nd.mp4" ≠ "landscape" ++ "/" ++ "v-1" ++ ".mp4" ∧
    "landscape/videos/r4nd.mp4" ≠ "landscape" ++ "/" ++ "r4nd" ++ ".mp4" := by decide

/-- Helper: the temp-file name created from the os.CreateTemp pattern always
ends in ".mp4", so the fast-start path computation never hits the
out-of-bounds case. -/
theorem processVideoForFastStart_temp (t : String) :
    processVideoForFastStart ("tubely-upload-" ++ t ++ ".mp4") true =
      some (.ok (("tubely-upload-" ++ t ++ ".mp4").take
        (("tubely-upload-" ++ t ++ ".mp4").length - 4) ++ "-faststart.mp4")) := by
  have h4 : 4 ≤ ("tubely-upload-" ++ t ++ ".mp4").length := by
    have e1 : ("tubely-upload-" : String).length = 14 := rfl
    have e2 : (".mp4" : String).length = 4 := rfl
    simp only [String.length_append, e1, e2]
    omega
  unfold processVideoForFastStart fastStartOutputPath
  rw [if_pos h4]
  rfl

/-- C7 (amended): a successful variant-A upload stores exactly the key
{aspect}/{videoID}.mp4, a successful variant-B upload stores exactly
{aspect}/videos/{randomName}.mp4, and a successful thumbnail upload writes
exactly the asset {randomName}{ext} (ext carrying the leading dot) under the
assets root. -/
theorem c7_key_format
    (ea : VideoEnvA) (eb : VideoEnvB) (te : ThumbEnv)
    (vidA ta1 ua1 : String) (videoA : VideoRecord) (arA : String)
    (g1 : ea.parsedVideoID = some vidA) (g2 : ea.bearerToken = some ta1)
    (g3 : ea.jwtUserID = some ua1) (g4 : ea.getVideo = some videoA)
    (g5 : videoA.userID = ua1) (g6 : ea.formFile = some (some "video/mp4"))
    (g7 : ea.createTempOK = true) (g8 : ea.copyOK = true)
    (g9 : getVideoAspectRatio ea.ffprobe = .ok arA) (g10 : ea.seekOK = true)
    (g11 : ea.ffmpegOK = true) (g12 : ea.openProcessedOK = true)
    (g13 : ea.putObjectOK = true) (g14 : ea.updateOK = true)
    (vidB tb1 ub1 : String) (videoB : VideoRecord) (arB : String)
    (k1 : eb.parsedVideoID = some vidB) (k2 : eb.bearerToken = some tb1)
    (k3 : eb.jwtUserID = some ub1) (k4 : eb.getVideo = some videoB)
    (k5 : videoB.userID = ub1) (k6 : eb.formFile = some (some "video/mp4"))
    (k7 : eb.createTempOK = true) (k8 : eb.copyOK = true)
    (k9 : getVideoAspectRatio eb.ffprobe = .ok arB) (k10 : eb.seekOK = true)
    (k11 : eb.randReadOK = true) (k12 : eb.putObjectOK = true) (k13 : eb.updateOK = true)
    (v1 t1 u1 ct ext : String) (rest : List String) (video1 : VideoRecord)
    (h1 : te.parsedVideoID = some v1) (h2 : te.bearerToken = some t1)
    (h3 : te.jwtUserID = some u1) (h4 : te.parseFormOK = true)
    (h5 : te.formFile = some ct) (h6 : extensionsByType ct = ext :: rest)
    (h7 : ext = ".jpg" ∨ ext = ".png") (h8 : te.getVideo = some video1)
    (h9 : video1.userID = u1) (h10 : te.randReadOK = true) (h11 : te.createOK = true)
    (h12 : te.copyOK = true) (h13 : te.updateOK = true) :
    ((handlerUploadVideoA ea).status = 200 ∧
      (handlerUploadVideoA ea).objectPut =
        some (aspectStringOf arA ++ "/" ++ vidA ++ ".mp4")) ∧
    ((handlerUploadVideoB eb).status = 200 ∧
      (handlerUploadVideoB eb).objectPut =
        some (aspectStringOf arB ++ "/videos/" ++ eb.randomName ++ ".mp4")) ∧
    ((handlerUploadThumbnail te).status = 200 ∧
      (handlerUploadThumbnail te).fileWritten =
        some (te.assetsRoot ++ "/" ++ te.randomName ++ ext)) := by
  have hext : ¬(ext ≠ ".jpg" ∧ ext ≠ ".png") := by
    rcases h7 with h7 | h7 <;> subst h7
    · exact fun hc => hc.1 rfl
    · exact fun hc => hc.2 rfl
  refine ⟨?_, ?_, ?_⟩
  · simp [handlerUploadVideoA, g1, g2, g3, g4, g5, g6, g7, g8, g9, g10, g11, g12, g13, g14,
      processVideoForFastStart_temp]
  · simp [handlerUploadVideoB, k1, k2, k3, k4, k5, k6, k7, k8, k9, k10, k11, k12, k13]
  · simp [handlerUploadThumbnail, h1, h2, h3, h4, h5, h6, h8, h9, h10, h11, h12, h13, hext]

/-- Fully successful video upload against variant A used for the C7 and C8
witnesses. -/
def c7VideoEnvA : VideoEnvA :=
  { parsedVideoID := some "v-1", bearerToken := some "tok", jwtUserID := some "alice",
    getVideo := some { id := "v-1", userID := "alice", thumbnailURL := none, videoURL := none },
    formFile := some (some "video/mp4"), createTempOK := true, tempRand := "abc123",
    copyOK := true, ffprobe := some [(1920, 1080)], seekOK := true, ffmpegOK := true,
    openProcessedOK := true, putObjectOK := true, updateOK := true,
    s3CfDistribution := "cdn.example.com" }

/-- Fully successful thumbnail upload used for the C7 witness. -/
def c7ThumbEnv : ThumbEnv :=
  { parsedVideoID := some "v-1", bearerToken := some "tok", jwtUserID := some "alice",
    parseFormOK := true, formFile := some "image/png",
    getVideo := some { id := "v-1", userID := "alice", thumbnailURL := none, videoURL := none },
    randReadOK := true, randomName := "r4nd", createOK := true, copyOK := true,
    updateOK := true, assetsRoot := "assets", port := "8091" }

/-- Witness for c7_key_format: concrete successful runs of all three
handlers, with the stored key and asset path evaluated through the
theorem. -/
theorem c7_key_format_witness :
    ((handlerUploadVideoA c7VideoEnvA).status = 200 ∧
      (handlerUploadVideoA c7VideoEnvA).objectPut =
        some (aspectStringOf "16:9" ++ "/" ++ "v-1" ++ ".mp4")) ∧
    ((handlerUploadVideoB c7VideoEnvB).status = 200 ∧
      (handlerUploadVideoB c7VideoEnvB).objectPut =
        some (aspectStringOf "16:9" ++ "/videos/" ++ c7VideoEnvB.randomName ++ ".mp4")) ∧
    ((handlerUploadThumbnail c7ThumbEnv).status = 200 ∧
      (handlerUploadThumbnail c7ThumbEnv).fileWritten =
        some (c7ThumbEnv.assetsRoot ++ "/" ++ c7ThumbEnv.randomName ++ ".png")) :=
  c7_key_format c7VideoEnvA c7VideoEnvB c7ThumbEnv
    "v-1" "tok" "alice" { id := "v-1", userID := "alice", thumbnailURL := none, videoURL := none }
    "16:9" rfl rfl rfl rfl rfl rfl rfl rfl (by rfl) rfl rfl rfl rfl rfl
    "v-1" "tok" "alice" { id := "v-1", userID := "alice", thumbnailURL := none, videoURL := none }
    "16:9" rfl rfl rfl rfl rfl rfl rfl rfl (by rfl) rfl rfl rfl rfl
    "v-1" "tok" "alice" "image/png" ".png" []
    { id := "v-1", userID := "alice", thumbnailURL := none, videoURL := none }
    rfl rfl rfl rfl rfl rfl (Or.inr rfl) rfl rfl rfl rfl rfl rfl

/-- First of two successful variant-A uploads for the same video identifier
(runs differ in their random temp-file name). -/
def c8VideoEnvA1 : VideoEnvA :=
  { parsedVideoID := some "v-1", bearerToken := some "tok", jwtUserID := some "alice",
    getVideo := some { id := "v-1", userID := "alice", thumbnailURL := none, videoURL := none },
    formFile := some (some "video/mp4"), createTempOK := true, tempRand := "run1",
    copyOK := true, ffprobe := some [(1920, 1080)], seekOK := true, ffmpegOK := true,
    openProcessedOK := true, putObjectOK := true, updateOK := true,
    s3CfDistribution := "cdn.example.com" }

/-- Second upload of the same video, differing only in the random temp-file
name drawn by os.CreateTemp. -/
def c8VideoEnvA2 : VideoEnvA :=
  { parsedVideoID := some "v-1", bearerToken := some "tok", jwtUserID := some "alice",
    getVideo := some { id := "v-1", userID := "alice", thumbnailURL := none, videoURL := none },
    formFile := some (some "video/mp4"), createTempOK := true, tempRand := "run2",
    copyOK := true, ffprobe := some [(1920, 1080)], seekOK := true, ffmpegOK := true,
    openProcessedOK := true, putObjectOK := true, updateOK := true,
    s3CfDistribution := "cdn.example.com" }

/-- C8 counterexample: in variant A the object key is deterministic, so two
successful uploads for the same video identifier store the SAME key
(landscape/v-1.mp4), not two distinct random keys as claimed. -/
theorem c8_counterexample :
    (handlerUploadVideoA c8VideoEnvA1).status = 200 ∧
    (handlerUploadVideoA c8VideoEnvA2).status = 200 ∧
    c8VideoEnvA1.tempRand ≠ c8VideoEnvA2.tempRand ∧
    (handlerUploadVideoA c8VideoEnvA1).objectPut = some "landscape/v-1.mp4" ∧
    (handlerUploadVideoA c8VideoEnvA2).objectPut =
      (handlerUploadVideoA c8VideoEnvA1).objectPut := by decide

/-- Object key stored by a successful variant-B upload, given the
classified aspect string. -/
def s3KeyB (e : VideoEnvB) (ar : String) : String :=
  aspectStringOf ar ++ "/videos/" ++ e.randomName ++ ".mp4"

/-- Video URL written to the record by a successful variant-B upload. -/
def videoURLB (e : VideoEnvB) (ar : String) : String :=
  "https://" ++ e.s3Bucket ++ ".s3." ++ e.s3Region ++ ".amazonaws.com/" ++ s3KeyB e ar

/-- The handler switch yields one of exactly three aspect prefixes. -/
theorem aspectStringOf_mem (ar : String) :
    aspectStringOf ar = "landscape" ∨ aspectStringOf ar = "portrait" ∨
      aspectStringOf ar = "other" := by
  unfold aspectStringOf
  by_cases h1 : ar = "16:9"
  · simp [h1]
  · by_cases h2 : ar = "9:16" <;> simp [h1, h2]

/-- Distinct random names give distinct variant-B object keys, whatever
aspect prefixes the handler switch produced (the three possible prefixes
have pairwise distinct first characters). -/
theorem keyB_inj (a1 a2 n1 n2 : String)
    (ha1 : a1 = "landscape" ∨ a1 = "portrait" ∨ a1 = "other")
    (ha2 : a2 = "landscape" ∨ a2 = "portrait" ∨ a2 = "other")
    (hn : n1 ≠ n2) :
    a1 ++ "/videos/" ++ n1 ++ ".mp4" ≠ a2 ++ "/videos/" ++ n2 ++ ".mp4" := by
  intro heq
  have hd := congrArg String.data heq
  simp only [String.data_append] at hd
  have hd2 := List.append_cancel_right hd
  have headEq := congrArg List.head? hd2
  rcases ha1 with h1 | h1 | h1 <;> rcases ha2 with h2 | h2 | h2 <;> subst h1 <;> subst h2 <;>
    first
    | exact hn (String.ext (List.append_cancel_left hd2))
    | exact absurd (Option.some.inj headEq) (by decide)

/-- With equal bucket and region configuration, distinct keys give distinct
variant-B video URLs. -/
theorem urlB_inj (b r k1 k2 : String) (hk : k1 ≠ k2) :
    "https://" ++ b ++ ".s3." ++ r ++ ".amazonaws.com/" ++ k1 ≠
      "https://" ++ b ++ ".s3." ++ r ++ ".amazonaws.com/" ++ k2 := by
  intro heq
  apply hk
  apply String.ext
  have hd := congrArg String.data heq
  simp only [String.data_append] at hd
  exact List.append_cancel_left hd

/-- C8 (amended): variant-B video upload is not idempotent.  Two successful
uploads for the same identifier whose drawn random names differ store two
DISTINCT object keys, the record afterwards carries exactly the second
URL of the second upload (last write wins), and the two URLs differ, so the first URL
is no longer reachable from the record.  (In variant A the key is the
deterministic {aspect}/{videoID}.mp4 instead, so the two uploads reuse one
key: see the counterexample.) -/
theorem c8_not_idempotent
    (e1 e2 : VideoEnvB)
    (v1 t1 u1 : String) (video1 : VideoRecord) (ar1 : String)
    (h1 : e1.parsedVideoID = some v1) (h2 : e1.bearerToken = some t1)
    (h3 : e1.jwtUserID = some u1) (h4 : e1.getVideo = some video1)
    (h5 : video1.userID = u1) (h6 : e1.formFile = some (some "video/mp4"))
    (h7 : e1.createTempOK = true) (h8 : e1.copyOK = true)
    (h9 : getVideoAspectRatio e1.ffprobe = .ok ar1) (h10 : e1.seekOK = true)
    (h11 : e1.randReadOK = true) (h12 : e1.putObjectOK = true) (h13 : e1.updateOK = true)
    (v2 t2 u2 : String) (video2 : VideoRecord) (ar2 : String)
    (k1 : e2.parsedVideoID = some v2) (k2 : e2.bearerToken = some t2)
    (k3 : e2.jwtUserID = some u2) (k4 : e2.getVideo = some video2)
    (k5 : video2.userID = u2) (k6 : e2.formFile = some (some "video/mp4"))
    (k7 : e2.createTempOK = true) (k8 : e2.copyOK = true)
    (k9 : getVideoAspectRatio e2.ffprobe = .ok ar2) (k10 : e2.seekOK = true)
    (k11 : e2.randReadOK = true) (k12 : e2.putObjectOK = true) (k13 : e2.updateOK = true)
    (hname : e1.randomName ≠ e2.randomName)
    (hbucket : e1.s3Bucket = e2.s3Bucket) (hregion : e1.s3Region = e2.s3Region) :
    (handlerUploadVideoB e1).status = 200 ∧
    (handlerUploadVideoB e2).status = 200 ∧
    (handlerUploadVideoB e1).objectPut = some (s3KeyB e1 ar1) ∧
    (handlerUploadVideoB e2).objectPut = some (s3KeyB e2 ar2) ∧
    s3KeyB e1 ar1 ≠ s3KeyB e2 ar2 ∧
    (handlerUploadVideoB e2).updatedRecord =
      some { video2 with videoURL := some (videoURLB e2 ar2) } ∧
    videoURLB e1 ar1 ≠ videoURLB e2 ar2 := by
  have hkey : s3KeyB e1 ar1 ≠ s3KeyB e2 ar2 :=
    keyB_inj _ _ _ _ (aspectStringOf_mem ar1) (aspectStringOf_mem ar2) hname
  have hurl : videoURLB e1 ar1 ≠ videoURLB e2 ar2 := by
    unfold videoURLB
    rw [hbucket, hregion]
    exact urlB_inj _ _ _ _ hkey
  refine ⟨?_, ?_, ?_, ?_, hkey, ?_, hurl⟩
  · simp [handlerUploadVideoB, h1, h2, h3, h4, h5, h6, h7, h8, h9, h10, h11, h12, h13]
  · simp [handlerUploadVideoB, k1, k2, k3, k4, k5, k6, k7, k8, k9, k10, k11, k12, k13]
  · simp [handlerUploadVideoB, s3KeyB, h1, h2, h3, h4, h5, h6, h7, h8, h9, h10, h11, h12, h13]
  · simp [handlerUploadVideoB, s3KeyB, k1, k2, k3, k4, k5, k6, k7, k8, k9, k10, k11, k12, k13]
  · simp [handlerUploadVideoB, s3KeyB, videoURLB, k1, k2, k3, k4, k5, k6, k7, k8, k9, k10,
      k11, k12, k13]

/-- First of two successful variant-B uploads, random name rn1. -/
def c8VideoEnvB1 : VideoEnvB :=
  { parsedVideoID := some "v-1", bearerToken := some "tok", jwtUserID := some "alice",
    getVideo := some { id := "v-1", userID := "alice", thumbnailURL := none, videoURL := none },
    formFile := some (some "video/mp4"), createTempOK := true, copyOK := true,
    ffprobe := some [(1920, 1080)], seekOK := true, randReadOK := true,
    randomName := "rn1", putObjectOK := true, updateOK := true,
    s3Bucket := "tubely", s3Region := "us-east-1" }

/-- Second successful variant-B upload of the same video, random name rn2. -/
def c8VideoEnvB2 : VideoEnvB :=
  { parsedVideoID := some "v-1", bearerToken := some "tok", jwtUserID := some "alice",
    getVideo := some { id := "v-1", userID := "alice", thumbnailURL := none, videoURL := none },
    formFile := some (some "video/mp4"), createTempOK := true, copyOK := true,
    ffprobe := some [(1920, 1080)], seekOK := true, randReadOK := true,
    randomName := "rn2", putObjectOK := true, updateOK := true,
    s3Bucket := "tubely", s3Region := "us-east-1" }

/-- Record state expected after the second witness upload. -/
def c8UpdatedRecord2 : VideoRecord :=
  { id := "v-1", userID := "alice", thumbnailURL := none,
    videoURL := some (videoURLB c8VideoEnvB2 "16:9") }

/-- Witness for c8_not_idempotent: two concrete variant-B uploads with
distinct random names. -/
theorem c8_not_idempotent_witness :
    (handlerUploadVideoB c8VideoEnvB1).status = 200 ∧
    (handlerUploadVideoB c8VideoEnvB2).status = 200 ∧
    (handlerUploadVideoB c8VideoEnvB1).objectPut = some (s3KeyB c8VideoEnvB1 "16:9") ∧
    (handlerUploadVideoB c8VideoEnvB2).objectPut = some (s3KeyB c8VideoEnvB2 "16:9") ∧
    s3KeyB c8VideoEnvB1 "16:9" ≠ s3KeyB c8VideoEnvB2 "16:9" ∧
    (handlerUploadVideoB c8VideoEnvB2).updatedRecord = some c8UpdatedRecord2 ∧
    videoURLB c8VideoEnvB1 "16:9" ≠ videoURLB c8VideoEnvB2 "16:9" :=
  c8_not_idempotent c8VideoEnvB1 c8VideoEnvB2
    "v-1" "tok" "alice"
    { id := "v-1", userID := "alice", thumbnailURL := none, videoURL := none }
    "16:9" rfl rfl rfl rfl rfl rfl rfl rfl (by rfl) rfl rfl rfl rfl
    "v-1" "tok" "alice"
    { id := "v-1", userID := "alice", thumbnailURL := none, videoURL := none }
    "16:9" rfl rfl rfl rfl rfl rfl rfl rfl (by rfl) rfl rfl rfl rfl
    (by decide) rfl rfl
